import Mathlib

/-!
Shallow embedding of `gradio_demo.py` (speech2speech): the Speaker data
model, the `conversation` handler (validation, speaker construction,
transcript parsing into a History, HTML rendering, playback), the
`play_history` fan-out/fan-in playback pipeline, and the `make_voices`
provisioning handler.

External collaborators (elevenlabs, openailib, tube, yaml, sounddevice)
are modelled as parameters: fallible functions returning `Except PyErr`.
Every call to a collaborator is recorded as a `CallEvent` so that
theorems can speak about which calls were issued and in what order.
-/

/-- Python exception values as they occur in this program: `assert`
raises `AssertionError`, tuple unpacking of the wrong arity raises
`ValueError`, a dict access with a missing key raises `KeyError`,
calling `.items()` on a non-dict raises `AttributeError`; a collaborator
may raise any of these or some other exception. -/
inductive PyErr where
  | assertionError (msg : String)
  | valueError (msg : String)
  | keyError (msg : String)
  | attributeError (msg : String)
  | otherError (msg : String)
deriving DecidableEq, Repr

/-- The `Speaker` class of `gradio_demo.py`: name, opaque voice handle
(an `ElevenLabsVoice` in the source, modelled as a string), and a
cosmetic display color. -/
structure Speaker where
  name : String
  voice : String
  color : String
deriving DecidableEq, Repr

/-- A parsed YAML value, as `yaml.safe_load` produces for the voice
registry. Mapping keys in this application are always strings
(persona names and the fields url / start_minute / duration), so
dictionaries are modelled with string keys. -/
inductive Yaml where
  | str (s : String)
  | nat (n : Nat)
  | list (xs : List Yaml)
  | dict (entries : List (String × Yaml))

/-- One observable interaction of the program with the outside world:
a collaborator call, a playback call, or a logged warning. -/
inductive CallEvent where
  | checkVoice (name : String)
  | getVoice (name : String)
  | transcribe (audio : String)
  | generate (names : List String) (iam : String) (request : String)
      (model : String) (maxTokens : Nat) (temperature : String)
  | synthesize (text : String) (voice : String)
  | play (clip : String)
  | warn (msg : String)
  | extractAudio (url : Yaml) (label : String) (startMinute : Yaml) (duration : Yaml)
  | registerVoice (name : String) (audioPaths : List String)

/-- The collaborators `conversation` calls, with their possible
failures: `check_voice_exists`, `get_make_voice` (one-argument form),
`speech_to_text`, `fake_conversation`, `text_to_speechbytes`. -/
structure Env where
  check_voice_exists : String → Except PyErr (Option String)
  get_make_voice : String → Except PyErr String
  speech_to_text : String → Except PyErr String
  fake_conversation : List String → String → String → String → Nat → String →
      Except PyErr String
  text_to_speechbytes : String → String → Except PyErr String

/-- The fixed color palette `COLORS` of `gradio_demo.py`. -/
def COLORS : List String :=
  ["#FFA07A", "#F08080", "#AFEEEE", "#B0E0E6", "#DDA0DD", "#FFFFE0",
   "#F0E68C", "#90EE90", "#87CEFA", "#FFB6C1"]

/-- The HTML bubble built for each transcript line (and for the original
utterance): the f-string of `gradio_demo.py` lines 80 and 98. -/
def bubble (color text : String) : String :=
  s!"<div style='background-color: {color}; border-radius: 5px; padding: 5px; margin: 5px;'>{text}</div>"

/-- Splitting a character list at every occurrence of a separator
character; the reversed accumulator holds the current segment. -/
def splitChars (sep : Char) (acc : List Char) : List Char → List (List Char)
  | [] => [acc.reverse]
  | c :: cs =>
    if c = sep then acc.reverse :: splitChars sep [] cs
    else splitChars sep (c :: acc) cs

/-- Python `str.split(sep)` for a one-character separator `sep`: every
occurrence of `sep` separates two (possibly empty) segments, so the
result has one more segment than there are occurrences of `sep`. -/
def pySplit (s : String) (sep : Char) : List String :=
  (splitChars sep [] s.data).map String.mk

/-- Python `"c" in s` for a one-character needle. -/
def pyContains (s : String) (c : Char) : Bool :=
  s.data.contains c

/-- Python `str.splitlines` restricted to newline-separated text: split
on the newline character; Python yields no final empty segment for a
trailing newline (and `if not line: continue` skips empty lines anyway). -/
def splitlines (s : String) : List String :=
  let parts := pySplit s '\n'
  if parts.getLast? = some "" then parts.dropLast else parts

/-- Python dict assignment `d[k] = v`: replace the binding if the key is
present, append it otherwise (insertion order preserved, last write wins). -/
def dictInsert (d : List (String × Speaker)) (k : String) (v : Speaker) :
    List (String × Speaker) :=
  if d.any (fun p => p.1 = k) then
    d.map (fun p => if p.1 = k then (k, v) else p)
  else d ++ [(k, v)]

/-- The speaker-construction loop of `conversation` (lines 67-75): for
each selected name, assert `check_voice_exists(name) is not None`, then
build `Speaker(name, get_make_voice(name), COLORS[i % len(COLORS)])`.
The index `i` and the dict built so far are threaded through. -/
def build_speakers (env : Env) (colors : List String) :
    List String → Nat → List (String × Speaker) →
    Except PyErr (List (String × Speaker)) × List CallEvent
  | [], _, acc => (Except.ok acc, [])
  | name :: rest, i, acc =>
    match env.check_voice_exists name with
    | Except.error e => (Except.error e, [CallEvent.checkVoice name])
    | Except.ok none =>
        (Except.error (PyErr.assertionError s!"Voice {name} does not exist"),
         [CallEvent.checkVoice name])
    | Except.ok (some _) =>
      match env.get_make_voice name with
      | Except.error e =>
          (Except.error e, [CallEvent.checkVoice name, CallEvent.getVoice name])
      | Except.ok voice =>
        let sp : Speaker :=
          { name := name, voice := voice,
            color := colors.getD (i % colors.length) "" }
        match build_speakers env colors rest (i + 1) (dictInsert acc name sp) with
        | (r, evs) =>
          (r, CallEvent.checkVoice name :: CallEvent.getVoice name :: evs)

/-- One iteration of the transcript-parsing loop of `conversation`
(lines 87-102). Returns `ok (some (speaker, text))` when the line is
kept, `ok none` when it is skipped (possibly with a logged warning),
and `error` when an exception other than `AssertionError` escapes the
`try` block: `ValueError` when `line.split(":")` does not unpack into
exactly two parts, `KeyError` when the named speaker is known (in
`NAMES`) but absent from the active `speakers` dict. -/
def processLine (names : List String) (speakers : List (String × Speaker))
    (line : String) :
    Except PyErr (Option (Speaker × String)) × List CallEvent :=
  if line = "" then (Except.ok none, [])
  else if pyContains line ':' then
    match pySplit line ':' with
    | [name, text] =>
      if name ∈ names then
        match speakers.lookup name with
        | none => (Except.error (PyErr.keyError name), [])
        | some speaker =>
          if text = "" then
            (Except.ok none, [CallEvent.warn s!"Text {text} is empty"])
          else
            (Except.ok (some (speaker, text)), [])
      else
        (Except.ok none, [CallEvent.warn s!"Name {name} is not in {names}"])
    | parts =>
      (Except.error (PyErr.valueError
        s!"values to unpack expected 2 got {parts.length}"), [])
  else
    (Except.ok none, [CallEvent.warn s!"Line {line} does not have a colon"])

/-- The whole transcript-parsing loop: fold `processLine` over the lines
of the generated reply, collecting the History (kept `(speaker, text)`
pairs in order), the HTML bubbles of the kept lines, and the warning
events; the first escaping exception aborts the build. -/
def build_history (names : List String) (speakers : List (String × Speaker)) :
    List String →
    Except PyErr (List (Speaker × String) × List String) × List CallEvent
  | [] => (Except.ok ([], []), [])
  | line :: rest =>
    match processLine names speakers line with
    | (Except.error e, evs) => (Except.error e, evs)
    | (Except.ok none, evs) =>
      match build_history names speakers rest with
      | (r, evs2) => (r, evs ++ evs2)
    | (Except.ok (some (sp, text)), evs) =>
      match build_history names speakers rest with
      | (Except.error e, evs2) => (Except.error e, evs ++ evs2)
      | (Except.ok (hist, bubbles), evs2) =>
        (Except.ok ((sp, text) :: hist, bubble sp.color text :: bubbles),
         evs ++ evs2)

/-- `asyncio.gather` over the synthesis results: the returned list is in
task-submission order; the first exception propagates. -/
def gatherResults : List (Except PyErr String) → Except PyErr (List String)
  | [] => Except.ok []
  | Except.error e :: _ => Except.error e
  | Except.ok b :: rest =>
    match gatherResults rest with
    | Except.error e => Except.error e
    | Except.ok bs => Except.ok (b :: bs)

/-- The effectful `play_history` as run from `conversation` (lines
53-63): one synthesis request per History entry, in History order, with
that entry's text and its persona's voice; then, if all synthesis
succeeded, one playback call per clip in the gathered (= History) order. -/
def play_run (env : Env) (history : List (Speaker × String)) :
    Except PyErr Unit × List CallEvent :=
  let reqEvents := history.map (fun p => CallEvent.synthesize p.2 p.1.voice)
  match gatherResults (history.map (fun p => env.text_to_speechbytes p.2 p.1.voice)) with
  | Except.error e => (Except.error e, reqEvents)
  | Except.ok clips => (Except.ok (), reqEvents ++ clips.map CallEvent.play)

/-- The `conversation` handler (lines 65-104), faithful to the source
order of effects: the `iam in names` assertion before any collaborator
call, then the speaker loop, transcription, the original-utterance
bubble, generation, transcript parsing, playback, and the joined HTML.
The `timeout`, `samplerate` and `channels` parameters are accepted (as
in the source signature) and never read (as in the source body). -/
def conversation (env : Env) (knownNames : List String) (colors : List String)
    (names : List String) (iam : String) (audio : String) (model : String)
    (max_tokens : Nat) (temperature : String)
    (timeout samplerate channels : Nat) :
    Except PyErr String × List CallEvent :=
  if iam ∈ names then
    match build_speakers env colors names 0 [] with
    | (Except.error e, evs) => (Except.error e, evs)
    | (Except.ok speakers, evs1) =>
      match env.speech_to_text audio with
      | Except.error e => (Except.error e, evs1 ++ [CallEvent.transcribe audio])
      | Except.ok request =>
        match speakers.lookup iam with
        | none =>
            (Except.error (PyErr.keyError iam),
             evs1 ++ [CallEvent.transcribe audio])
        | some spIam =>
          let html0 := bubble spIam.color request
          match env.fake_conversation names iam request model max_tokens temperature with
          | Except.error e =>
              (Except.error e,
               evs1 ++ [CallEvent.transcribe audio,
                 CallEvent.generate names iam request model max_tokens temperature])
          | Except.ok response =>
            match build_history knownNames speakers (splitlines response) with
            | (Except.error e, warns) =>
                (Except.error e,
                 evs1 ++ [CallEvent.transcribe audio,
                   CallEvent.generate names iam request model max_tokens temperature]
                   ++ warns)
            | (Except.ok (history, bubbles), warns) =>
              match play_run env history with
              | (Except.error e, pevs) =>
                  (Except.error e,
                   evs1 ++ [CallEvent.transcribe audio,
                     CallEvent.generate names iam request model max_tokens temperature]
                     ++ warns ++ pevs)
              | (Except.ok _, pevs) =>
                  (Except.ok (String.join (html0 :: bubbles)),
                   evs1 ++ [CallEvent.transcribe audio,
                     CallEvent.generate names iam request model max_tokens temperature]
                     ++ warns ++ pevs)
  else
    (Except.error (PyErr.assertionError
      s!"I am {iam} but I don't have a voice"), [])

/-!
The scheduled model of `play_history` (lines 53-63): the task list is
built in History order; the tasks may complete in any order (the
schedule, a permutation of the task indices); `asyncio.gather` returns
the results indexed by original position, so playback is in History
order regardless of the schedule.
-/

/-- The observable behavior of one `play_history` call: the synthesis
requests in submission order, the completion events (task index paired
with its result) in completion order, and the playback calls in
playback order. -/
structure PlayTrace where
  requests : List (String × String)
  completions : List (Nat × String)
  plays : List String
deriving DecidableEq, Repr

/-- The completion events of the synthesis tasks: task `i` completes
with result `f i`, in schedule order. -/
def completionList (f : Nat → String) (sched : List Nat) : List (Nat × String) :=
  sched.map (fun i => (i, f i))

/-- `asyncio.gather`'s fan-in: the results re-assembled indexed by
original task position 0, 1, ..., n-1, whatever the completion order. -/
def collectInOrder (completed : List (Nat × String)) (n : Nat) : List String :=
  (List.range n).filterMap
    (fun j => (completed.find? (fun p => p.1 == j)).map (fun p => p.2))

/-- The default entry a task index out of range would read (never
reached when the schedule is a permutation of the task indices). -/
def dummyEntry : Speaker × String := ({ name := "", voice := "", color := "" }, "")

/-- The pure scheduled `play_history`: tasks `(text, voice)` are created
in History order (line 57), complete in schedule order, and the gathered
clips are played in original order (lines 60-63). -/
def play_history (synth : String → String → String)
    (history : List (Speaker × String)) (sched : List Nat) : PlayTrace :=
  let tasks := history.map (fun p => (p.2, p.1.voice))
  let f := fun i => synth (tasks.getD i ("", "")).1 (tasks.getD i ("", "")).2
  let completed := completionList f sched
  { requests := tasks
    completions := completed
    plays := collectInOrder completed history.length }

/-!
The `make_voices` handler (lines 107-129). Its collaborators:
`yaml.safe_load`, `extract_audio` (from `tube`), and the provisioning
pair `check_voice_exists` / `get_make_voice(name, audio_paths)` from
`elevenlabs`. The provisioning pair is stateful across calls.
Modelled from the spec: `elevenlabs`' voice store is not in the
repository; per §6 `voiceExists(name) -> bool` reports whether `name`
has been registered and `registerVoice(name, sampleAudioPaths)`
registers it, so the store is a list of registered names, truthiness of
`check_voice_exists(name)` is membership, and a successful
`get_make_voice(name, audio_paths)` adds `name`. -/
structure MVEnv where
  safe_load : String → Except PyErr Yaml
  extract_audio : Yaml → String → Yaml → Yaml → Except PyErr String
  register : String → List String → Except PyErr Unit

/-- The inner loop of `make_voices` (lines 116-124): for each video
record, assert it is a dict with a `url` field, read `start_minute`
(default 0) and `duration` (default 120), and extract audio under the
label `audio.{name}.{i}`. -/
def extract_all (mv : MVEnv) (name : String) :
    List Yaml → Nat → Except PyErr (List String) × List CallEvent
  | [], _ => (Except.ok [], [])
  | video :: rest, i =>
    match video with
    | Yaml.dict kvs =>
      match kvs.lookup "url" with
      | none => (Except.error (PyErr.assertionError "Video does not have a url"), [])
      | some url =>
        let startMinute := (kvs.lookup "start_minute").getD (Yaml.nat 0)
        let duration := (kvs.lookup "duration").getD (Yaml.nat 120)
        let label := s!"audio.{name}.{i}"
        match mv.extract_audio url label startMinute duration with
        | Except.error e =>
            (Except.error e, [CallEvent.extractAudio url label startMinute duration])
        | Except.ok path =>
          match extract_all mv name rest (i + 1) with
          | (Except.error e, evs) =>
              (Except.error e,
               CallEvent.extractAudio url label startMinute duration :: evs)
          | (Except.ok paths, evs) =>
              (Except.ok (path :: paths),
               CallEvent.extractAudio url label startMinute duration :: evs)
    | _ => (Except.error (PyErr.assertionError "Video is not a dict"), [])

/-- The outer loop of `make_voices` (lines 110-125) over the registry
entries, threading the collaborator's voice store: each entry must map a
name to a list; if `check_voice_exists(name)` is truthy the entry is
skipped (`continue`), otherwise its audio is extracted and the voice
registered. (Mapping keys are strings in this model, so the
`isinstance(name, str)` assert of line 111 always passes.) -/
def make_voices_loop (mv : MVEnv) :
    List (String × Yaml) → List String →
    Except PyErr Unit × List CallEvent × List String
  | [], store => (Except.ok (), [], store)
  | (name, videosY) :: rest, store =>
    match videosY with
    | Yaml.list videos =>
      if name ∈ store then
        match make_voices_loop mv rest store with
        | (r, evs, store2) => (r, CallEvent.checkVoice name :: evs, store2)
      else
        match extract_all mv name videos 0 with
        | (Except.error e, eevs) =>
            (Except.error e, CallEvent.checkVoice name :: eevs, store)
        | (Except.ok paths, eevs) =>
          match mv.register name paths with
          | Except.error e =>
              (Except.error e,
               CallEvent.checkVoice name ::
                 (eevs ++ [CallEvent.registerVoice name paths]), store)
          | Except.ok _ =>
            match make_voices_loop mv rest (store ++ [name]) with
            | (r, evs, store2) =>
              (r, CallEvent.checkVoice name ::
                    (eevs ++ CallEvent.registerVoice name paths :: evs), store2)
    | _ => (Except.error (PyErr.assertionError "Videos is not a list"), [], store)

/-- `make_voices(voices_yaml)` (lines 107-129): parse the document,
iterate its entries (a non-mapping document fails `.items()` with
`AttributeError`); the `try`/`except` re-raises every exception
unchanged (`raise e`), and on success the handler returns the string
`"Success"`. The voice store is threaded in and out. -/
def make_voices (mv : MVEnv) (voices_yaml : String) (store : List String) :
    Except PyErr String × List CallEvent × List String :=
  match mv.safe_load voices_yaml with
  | Except.error e => (Except.error e, [], store)
  | Except.ok (Yaml.dict entries) =>
    match make_voices_loop mv entries store with
    | (Except.error e, evs, store2) => (Except.error e, evs, store2)
    | (Except.ok _, evs, store2) => (Except.ok "Success", evs, store2)
  | Except.ok _ =>
      (Except.error (PyErr.attributeError "items"), [], store)

/-- Does this event provision a voice (audio extraction or voice
registration)? Used to state that re-provisioning performs neither. -/
def CallEvent.isProvisionCall : CallEvent → Bool
  | CallEvent.extractAudio _ _ _ _ => true
  | CallEvent.registerVoice _ _ => true
  | _ => false

/-!
Theorems. First the fan-in ordering lemmas behind claim C1.
-/

theorem find_completionList (f : Nat → String) (j : Nat) :
    ∀ sched : List Nat, j ∈ sched →
      (completionList f sched).find? (fun p => p.1 == j) = some (j, f j) := by
  intro sched
  induction sched with
  | nil => intro h; cases h
  | cons i rest ih =>
    intro hj
    by_cases h : i = j
    · subst h
      exact List.find?_cons_of_pos _ (by simp)
    · rw [show completionList f (i :: rest) = (i, f i) :: completionList f rest from rfl,
        List.find?_cons_of_neg _ (by simp [h])]
      exact ih ((List.mem_cons.mp hj).resolve_left (fun hh => h hh.symm))

theorem filterMap_all_some {α β : Type} (g : α → Option β) (f : α → β) :
    ∀ l : List α, (∀ x ∈ l, g x = some (f x)) → l.filterMap g = l.map f := by
  intro l
  induction l with
  | nil => intro _; rfl
  | cons a l ih =>
    intro h
    rw [List.filterMap_cons, h a (List.mem_cons_self a l), List.map_cons,
      ih (fun x hx => h x (List.mem_cons_of_mem a hx))]

theorem collect_completionList (f : Nat → String) (sched : List Nat) (n : Nat)
    (h : ∀ j, j < n → j ∈ sched) :
    collectInOrder (completionList f sched) n = (List.range n).map f := by
  unfold collectInOrder
  apply filterMap_all_some
  intro j hj
  rw [find_completionList f j sched (h j (List.mem_range.mp hj))]
  rfl

theorem map_range_getD {α β : Type} (l : List α) (d : α) (g : α → β) :
    (List.range l.length).map (fun j => g (l.getD j d)) = l.map g := by
  apply List.ext_getElem
  · simp
  · intro i h1 h2
    simp only [List.getElem_map, List.getElem_range]
    have hi : i < l.length := by simpa using h2
    rw [List.getD_eq_getElem l d hi]

/-- C1: for every History of N entries handed to `play_history` and
every completion order of the synthesis tasks (any permutation of the
task indices), the pipeline issues exactly N synthesis requests — one
per entry, in History order, with that entry's text and its persona's
voice — sees exactly N completions, and performs exactly N playback
calls whose order is exactly the original History order: the gathered
clips are indexed by original position, independent of the schedule. -/
theorem claim_C1 (synth : String → String → String)
    (history : List (Speaker × String)) (sched : List Nat)
    (hperm : sched.Perm (List.range history.length)) :
    (play_history synth history sched).requests =
        history.map (fun p => (p.2, p.1.voice)) ∧
    (play_history synth history sched).requests.length = history.length ∧
    (play_history synth history sched).completions.length = history.length ∧
    (play_history synth history sched).plays =
        history.map (fun p => synth p.2 p.1.voice) ∧
    (play_history synth history sched).plays.length = history.length := by
  have hcov : ∀ j, j < history.length → j ∈ sched := fun j hj =>
    (hperm.mem_iff).mpr (List.mem_range.mpr hj)
  have hplays : (play_history synth history sched).plays =
      history.map (fun p => synth p.2 p.1.voice) := by
    show collectInOrder
        (completionList
          (fun i =>
            synth ((history.map (fun p => (p.2, p.1.voice))).getD i ("", "")).1
              ((history.map (fun p => (p.2, p.1.voice))).getD i ("", "")).2)
          sched)
        history.length = history.map (fun p => synth p.2 p.1.voice)
    rw [collect_completionList _ sched history.length hcov]
    have hlen : history.length = (history.map (fun p => (p.2, p.1.voice))).length := by
      simp
    rw [hlen,
      map_range_getD (history.map (fun p => (p.2, p.1.voice))) ("", "")
        (fun q => synth q.1 q.2),
      List.map_map]
    rfl
  refine ⟨rfl, by simp [play_history], ?_, hplays, by rw [hplays]; simp⟩
  show (completionList _ sched).length = history.length
  have := hperm.length_eq
  simp only [completionList, List.length_map, List.length_range] at this ⊢
  exact this

/-- Concrete data for the C1 witness: a three-entry History and the
out-of-order completion schedule 2, 0, 1. -/
def synthW : String → String → String := fun t v => t ++ "|" ++ v

/-- Three-entry History used by the C1 witness. -/
def histW : List (Speaker × String) :=
  [({ name := "Alice", voice := "vA", color := "#FFA07A" }, "hi"),
   ({ name := "Bob", voice := "vB", color := "#F08080" }, "yo"),
   ({ name := "Carol", voice := "vC", color := "#AFEEEE" }, "ok")]

/-- The Alice persona used by the concrete transcript scenarios. -/
def spAlice : Speaker := { name := "Alice", voice := "vA", color := "#FFA07A" }

/-- The Bob persona used by the concrete transcript scenarios. -/
def spBob : Speaker := { name := "Bob", voice := "vB", color := "#F08080" }

/-- The Carol persona used by the concrete transcript scenarios. -/
def spCarol : Speaker := { name := "Carol", voice := "vC", color := "#AFEEEE" }

/-- The active speakers dict for the known personas Alice, Bob, Carol. -/
def speakersABC : List (String × Speaker) :=
  [("Alice", spAlice), ("Bob", spBob), ("Carol", spCarol)]

theorem claim_C1_witness :
    ([2, 0, 1] : List Nat).Perm (List.range histW.length) ∧
    ((play_history synthW histW [2, 0, 1]).requests =
        histW.map (fun p => (p.2, p.1.voice)) ∧
     (play_history synthW histW [2, 0, 1]).requests.length = histW.length ∧
     (play_history synthW histW [2, 0, 1]).completions.length = histW.length ∧
     (play_history synthW histW [2, 0, 1]).plays =
        histW.map (fun p => synthW p.2 p.1.voice) ∧
     (play_history synthW histW [2, 0, 1]).plays.length = histW.length) :=
  ⟨by decide, claim_C1 synthW histW [2, 0, 1] (by decide)⟩

/-- C2 counterexample: a line of the generated reply CAN abort the
build of History. With known personas Alice and Bob and active speaker
Alice only, the line "a:b:c" (two colons) escapes the per-line handler
with a `ValueError` — `line.split(":")` yields three parts and the
two-variable unpacking fails, and `except AssertionError` does not
catch `ValueError` — and the line "Bob:hi" (speaker known but not
active) escapes it with a `KeyError` from `speakers[name]`. -/
theorem claim_C2_cex :
    (build_history ["Alice", "Bob"] [("Alice", spAlice)] ["a:b:c"]).1 =
      Except.error (PyErr.valueError "values to unpack expected 2 got 3") ∧
    (build_history ["Alice", "Bob"] [("Alice", spAlice)] ["Bob:hi"]).1 =
      Except.error (PyErr.keyError "Bob") := by
  exact ⟨rfl, rfl⟩

/-- C2 (amended): per line of the generated reply, the line is kept in
History iff it contains the colon delimiter, splits on colons into
exactly a name part and a text part (so exactly one colon), the name is
in the known persona set AND among the active speakers, and the text is
non-empty. The per-line processing aborts the whole build — contrary to
the original claim — exactly when the line contains a colon and either
splits into a number of parts other than two (uncaught `ValueError`) or
names a known persona that is not an active speaker (uncaught
`KeyError`). Otherwise the line is skipped, with a logged warning
exactly when it is non-empty (empty lines are skipped silently). -/
theorem claim_C2_amended (names : List String)
    (speakers : List (String × Speaker)) (line : String) :
    ((∃ sp text, (processLine names speakers line).1 = Except.ok (some (sp, text))) ↔
      (pyContains line ':' ∧ ∃ name text, pySplit line ':' = [name, text] ∧
        name ∈ names ∧ (speakers.lookup name).isSome ∧ text ≠ "")) ∧
    ((∃ e, (processLine names speakers line).1 = Except.error e) ↔
      (pyContains line ':' ∧
        ((pySplit line ':').length ≠ 2 ∨
          ∃ name text, pySplit line ':' = [name, text] ∧
            name ∈ names ∧ speakers.lookup name = none))) ∧
    ((processLine names speakers line).2 ≠ [] ↔
      (line ≠ "" ∧ (processLine names speakers line).1 = Except.ok none)) := by
  by_cases h0 : line = ""
  · subst h0
    refine ⟨?_, ?_, ?_⟩ <;>
      simp [processLine, show pyContains "" ':' = false from rfl]
  · by_cases h1 : pyContains line ':'
    · rcases hs : pySplit line ':' with - | ⟨n, - | ⟨t, - | ⟨x, xs⟩⟩⟩
      · refine ⟨?_, ?_, ?_⟩ <;> simp [processLine, h0, h1, hs]
      · refine ⟨?_, ?_, ?_⟩ <;> simp [processLine, h0, h1, hs]
      · by_cases hn : n ∈ names
        · rcases hl : speakers.lookup n with - | sp
          · have hres : processLine names speakers line =
                (Except.error (PyErr.keyError n), []) := by
              simp [processLine, h0, h1, hs, hn, hl]
            refine ⟨?_, ?_, ?_⟩
            · constructor
              · rintro ⟨sp', text, hEq⟩
                rw [hres] at hEq
                exact Except.noConfusion hEq
              · rintro ⟨-, name, text, heq, -, hsome, -⟩
                obtain ⟨e1, e2⟩ : n = name ∧ t = text := by
                  simpa using heq
                subst e1
                rw [hl] at hsome
                simp at hsome
            · constructor
              · intro _
                exact ⟨h1, Or.inr ⟨n, t, rfl, hn, hl⟩⟩
              · intro _
                exact ⟨PyErr.keyError n, by rw [hres]⟩
            · simp [hres]
          · by_cases ht : t = ""
            · have hres : processLine names speakers line =
                  (Except.ok none, [CallEvent.warn s!"Text {t} is empty"]) := by
                simp [processLine, h0, h1, hs, hn, hl, ht]
              refine ⟨?_, ?_, ?_⟩
              · constructor
                · rintro ⟨sp', text, hEq⟩
                  rw [hres] at hEq
                  simp at hEq
                · rintro ⟨-, name, text, heq, -, -, hne⟩
                  obtain ⟨e1, e2⟩ : n = name ∧ t = text := by
                    simpa using heq
                  exact absurd (e2.symm.trans ht) hne
              · constructor
                · rintro ⟨e, hEq⟩
                  rw [hres] at hEq
                  exact Except.noConfusion hEq
                · rintro ⟨-, hbad⟩
                  rcases hbad with hlen | ⟨name, text, heq, -, hnone⟩
                  · exact absurd rfl hlen
                  · obtain ⟨e1, e2⟩ : n = name ∧ t = text := by
                      simpa using heq
                    subst e1
                    rw [hl] at hnone
                    exact Option.noConfusion hnone
              · constructor
                · intro _
                  exact ⟨h0, by rw [hres]⟩
                · intro _
                  rw [hres]
                  simp
            · have hres : processLine names speakers line =
                  (Except.ok (some (sp, t)), []) := by
                simp [processLine, h0, h1, hs, hn, hl, ht]
              refine ⟨?_, ?_, ?_⟩
              · constructor
                · intro _
                  exact ⟨h1, n, t, rfl, hn, by rw [hl]; rfl, ht⟩
                · intro _
                  exact ⟨sp, t, by rw [hres]⟩
              · constructor
                · rintro ⟨e, hEq⟩
                  rw [hres] at hEq
                  exact Except.noConfusion hEq
                · rintro ⟨-, hbad⟩
                  rcases hbad with hlen | ⟨name, text, heq, -, hnone⟩
                  · exact absurd rfl hlen
                  · obtain ⟨e1, e2⟩ : n = name ∧ t = text := by
                      simpa using heq
                    subst e1
                    rw [hl] at hnone
                    exact Option.noConfusion hnone
              · simp [hres]
        · refine ⟨?_, ?_, ?_⟩ <;> simp [processLine, h0, h1, hs, hn]
      · refine ⟨?_, ?_, ?_⟩ <;> simp [processLine, h0, h1, hs]
    · refine ⟨?_, ?_, ?_⟩ <;> simp [processLine, h0, h1]

/-- C3: on the generated text "Alice:Hello there\nBob:\nUnknown:hi\n
Carol:Good to see you" with known personas Alice, Bob and Carol (all
active), the resulting History has exactly the two entries
(Alice, "Hello there") then (Carol, "Good to see you") in that order
with their two HTML bubbles; the empty-text Bob line and the
unknown-speaker Unknown line are dropped, each with a logged warning. -/
theorem claim_C3 :
    (build_history ["Alice", "Bob", "Carol"] speakersABC
        (splitlines "Alice:Hello there\nBob:\nUnknown:hi\nCarol:Good to see you")).1 =
      Except.ok ([(spAlice, "Hello there"), (spCarol, "Good to see you")],
        [bubble "#FFA07A" "Hello there", bubble "#AFEEEE" "Good to see you"]) ∧
    (build_history ["Alice", "Bob", "Carol"] speakersABC
        (splitlines "Alice:Hello there\nBob:\nUnknown:hi\nCarol:Good to see you")).2 =
      [CallEvent.warn "Text  is empty",
       CallEvent.warn "Name Unknown is not in [Alice, Bob, Carol]"] := by
  exact ⟨rfl, rfl⟩

/-- Stepping lemma for claim C4: if every name before `n` in the
selected list passes the existence check and resolves a voice, and
`check_voice_exists n` returns `None`, the speaker-construction loop
fails with the `AssertionError` naming `n`. -/
theorem build_speakers_missing (env : Env) (colors : List String)
    (n : String) (hn : env.check_voice_exists n = Except.ok none) :
    ∀ (pre : List String) (rest : List String) (i : Nat)
      (acc : List (String × Speaker)),
    (∀ p ∈ pre, (∃ v, env.check_voice_exists p = Except.ok (some v)) ∧
        ∃ g, env.get_make_voice p = Except.ok g) →
    (build_speakers env colors (pre ++ n :: rest) i acc).1 =
      Except.error (PyErr.assertionError s!"Voice {n} does not exist") := by
  intro pre
  induction pre with
  | nil =>
    intro rest i acc _
    simp [build_speakers, hn]
  | cons p pre ih =>
    intro rest i acc hpre
    obtain ⟨⟨v, hv⟩, ⟨g, hg⟩⟩ := hpre p (List.mem_cons_self p pre)
    have hrec := ih rest (i + 1)
      (dictInsert acc p
        { name := p, voice := g, color := colors.getD (i % colors.length) "" })
      (fun q hq => hpre q (List.mem_cons_of_mem p hq))
    simp only [List.cons_append, build_speakers, hv, hg]
    rcases hb : build_speakers env colors (pre ++ n :: rest) (i + 1)
        (dictInsert acc p
          { name := p, voice := g, color := colors.getD (i % colors.length) "" })
      with ⟨r, evs⟩
    rw [hb] at hrec
    exact hrec

/-- C4: (1) when `iam` is not among the selected names, `conversation`
fails with the `AssertionError` naming the problem and an EMPTY call
trace: no collaborator (voice lookup, transcription, generation,
synthesis) has been called. (2) When every selected name before `n`
passes the voice-existence check and `n` has no voice, `conversation`
fails with the `AssertionError` naming the missing persona `n`. -/
theorem claim_C4 :
    (∀ (env : Env) (kn colors names : List String) (iam audio model : String)
        (mt : Nat) (temp : String) (t s c : Nat),
      iam ∉ names →
      conversation env kn colors names iam audio model mt temp t s c =
        (Except.error (PyErr.assertionError
          s!"I am {iam} but I don't have a voice"), [])) ∧
    (∀ (env : Env) (kn colors : List String) (pre rest : List String)
        (n iam audio model : String) (mt : Nat) (temp : String) (t s c : Nat),
      iam ∈ pre ++ n :: rest →
      (∀ p ∈ pre, (∃ v, env.check_voice_exists p = Except.ok (some v)) ∧
          ∃ g, env.get_make_voice p = Except.ok g) →
      env.check_voice_exists n = Except.ok none →
      (conversation env kn colors (pre ++ n :: rest) iam audio model mt temp t s c).1 =
        Except.error (PyErr.assertionError s!"Voice {n} does not exist")) := by
  constructor
  · intro env kn colors names iam audio model mt temp t s c hmem
    simp [conversation, hmem]
  · intro env kn colors pre rest n iam audio model mt temp t s c hmem hpre hn
    have hstop := build_speakers_missing env colors n hn pre rest 0 [] hpre
    rcases hb : build_speakers env colors (pre ++ n :: rest) 0 [] with ⟨r, evs⟩
    rw [hb] at hstop
    simp only at hstop
    subst hstop
    simp [conversation, hmem, hb]

/-- A concrete collaborator environment: only Alice has a voice; every
other collaborator call succeeds with fixed values. -/
def envW : Env :=
  { check_voice_exists := fun name =>
      if name = "Alice" then Except.ok (some "vA") else Except.ok none
    get_make_voice := fun name => Except.ok ("v" ++ name)
    speech_to_text := fun _ => Except.ok "How are you?"
    fake_conversation := fun _ _ _ _ _ _ => Except.ok "Alice:Hello there"
    text_to_speechbytes := fun text voice => Except.ok (voice ++ ">" ++ text) }

theorem claim_C4_witness :
    (("Zed" ∉ (["Alice"] : List String)) ∧
      conversation envW ["Alice"] COLORS ["Alice"] "Zed" "a.wav" "gpt-3.5-turbo"
          75 "0.5" 10 48000 1 =
        (Except.error (PyErr.assertionError "I am Zed but I don't have a voice"),
         [])) ∧
    (("Alice" ∈ ["Alice"] ++ "Bob" :: ([] : List String)) ∧
      (conversation envW ["Alice"] COLORS (["Alice"] ++ "Bob" :: [])
          "Alice" "a.wav" "gpt-3.5-turbo" 75 "0.5" 10 48000 1).1 =
        Except.error (PyErr.assertionError "Voice Bob does not exist")) :=
  ⟨⟨by decide,
    claim_C4.1 envW ["Alice"] COLORS ["Alice"] "Zed" "a.wav" "gpt-3.5-turbo"
      75 "0.5" 10 48000 1 (by decide)⟩,
   ⟨by decide,
    claim_C4.2 envW ["Alice"] COLORS ["Alice"] [] "Bob" "Alice" "a.wav"
      "gpt-3.5-turbo" 75 "0.5" 10 48000 1 (by decide)
      (by
        intro p hp
        simp only [List.mem_singleton] at hp
        subst hp
        exact ⟨⟨"vA", rfl⟩, ⟨"vAlice", rfl⟩⟩)
      rfl⟩⟩

/-- An environment whose voice-lookup collaborator fails by raising the
very same `AssertionError` value that `conversation`'s own `iam`
validation raises. -/
def envCollabFail : Env :=
  { envW with check_voice_exists := fun _ =>
      Except.error (PyErr.assertionError "I am Bob but I don't have a voice") }

/-- C6 counterexample: the code does NOT surface failures as typed
errors distinguishing validation failures from collaborator failures.
A validation failure (`iam` not among the selected names) and a
collaborator failure (`check_voice_exists` raising) reach the caller as
the exact same exception value, so the caller cannot distinguish the
categories. -/
theorem claim_C6_cex :
    (conversation envW ["Alice"] COLORS ["Alice"] "Bob" "a.wav" "gpt-3.5-turbo"
        75 "0.5" 10 48000 1).1 =
      Except.error (PyErr.assertionError "I am Bob but I don't have a voice") ∧
    (conversation envCollabFail ["Alice"] COLORS ["Alice"] "Alice" "a.wav"
        "gpt-3.5-turbo" 75 "0.5" 10 48000 1).1 =
      Except.error (PyErr.assertionError "I am Bob but I don't have a voice") :=
  ⟨rfl, rfl⟩

/-- C6 (amended): collaborator failures are not wrapped in
distinguishing typed categories, but they do all propagate to the
caller UNCHANGED, and nothing is swallowed beyond the per-line
`AssertionError` skip of the transcript loop: (a) a transcription
failure, (b) a generation failure and (c) a synthesis failure each
surface from `conversation` as the collaborator's own exception value,
and (d) `make_voices`' `try`/`except` block re-raises any exception of
its body unchanged (it never converts one to a status string). -/
theorem claim_C6_amended :
    (∀ (env : Env) (kn colors names : List String) (iam audio model : String)
        (mt : Nat) (temp : String) (t s c : Nat)
        (sps : List (String × Speaker)) (tr : List CallEvent) (e : PyErr),
      iam ∈ names →
      build_speakers env colors names 0 [] = (Except.ok sps, tr) →
      env.speech_to_text audio = Except.error e →
      (conversation env kn colors names iam audio model mt temp t s c).1 =
        Except.error e) ∧
    (∀ (env : Env) (kn colors names : List String) (iam audio model req : String)
        (mt : Nat) (temp : String) (t s c : Nat)
        (sps : List (String × Speaker)) (tr : List CallEvent) (sp : Speaker)
        (e : PyErr),
      iam ∈ names →
      build_speakers env colors names 0 [] = (Except.ok sps, tr) →
      env.speech_to_text audio = Except.ok req →
      sps.lookup iam = some sp →
      env.fake_conversation names iam req model mt temp = Except.error e →
      (conversation env kn colors names iam audio model mt temp t s c).1 =
        Except.error e) ∧
    (∀ (env : Env) (kn colors names : List String)
        (iam audio model req resp : String) (mt : Nat) (temp : String)
        (t s c : Nat) (sps : List (String × Speaker)) (tr warns : List CallEvent)
        (sp : Speaker) (history : List (Speaker × String))
        (bubbles : List String) (e : PyErr),
      iam ∈ names →
      build_speakers env colors names 0 [] = (Except.ok sps, tr) →
      env.speech_to_text audio = Except.ok req →
      sps.lookup iam = some sp →
      env.fake_conversation names iam req model mt temp = Except.ok resp →
      build_history kn sps (splitlines resp) =
        (Except.ok (history, bubbles), warns) →
      gatherResults (history.map (fun p => env.text_to_speechbytes p.2 p.1.voice)) =
        Except.error e →
      (conversation env kn colors names iam audio model mt temp t s c).1 =
        Except.error e) ∧
    (∀ (mv : MVEnv) (voices_yaml : String) (store : List String)
        (entries : List (String × Yaml)) (e : PyErr),
      mv.safe_load voices_yaml = Except.ok (Yaml.dict entries) →
      (make_voices_loop mv entries store).1 = Except.error e →
      (make_voices mv voices_yaml store).1 = Except.error e) := by
  refine ⟨?_, ?_, ?_, ?_⟩
  · intro env kn colors names iam audio model mt temp t s c sps tr e
      hmem hb hstt
    simp [conversation, hmem, hb, hstt]
  · intro env kn colors names iam audio model req mt temp t s c sps tr sp e
      hmem hb hstt hlk hgen
    simp [conversation, hmem, hb, hstt, hlk, hgen]
  · intro env kn colors names iam audio model req resp mt temp t s c sps tr
      warns sp history bubbles e hmem hb hstt hlk hgen hbh hgather
    simp [conversation, hmem, hb, hstt, hlk, hgen, hbh, play_run, hgather]
  · intro mv voices_yaml store entries e hsl hloop
    rcases hl : make_voices_loop mv entries store with ⟨r, evs, st2⟩
    rw [hl] at hloop
    simp only at hloop
    subst hloop
    simp [make_voices, hsl, hl]

/-- Environment with a failing transcription collaborator. -/
def envSttFail : Env :=
  { envW with speech_to_text := fun _ =>
      Except.error (PyErr.otherError "stt down") }

/-- Environment with a failing text-generation collaborator. -/
def envGenFail : Env :=
  { envW with fake_conversation := fun _ _ _ _ _ _ =>
      Except.error (PyErr.otherError "llm down") }

/-- Environment with a failing voice-synthesis collaborator. -/
def envTtsFail : Env :=
  { envW with text_to_speechbytes := fun _ _ =>
      Except.error (PyErr.otherError "tts down") }

/-- The speakers dict the speaker loop builds for the selection
consisting of Alice alone, under `envW` and its variants. -/
def spsW : List (String × Speaker) :=
  [("Alice", { name := "Alice", voice := "vAlice", color := "#FFA07A" })]

/-- A provisioning environment whose registry document parses to a
mapping whose value is not a list, so the loop body raises. -/
def mvBad : MVEnv :=
  { safe_load := fun _ => Except.ok (Yaml.dict [("Alice", Yaml.nat 0)])
    extract_audio := fun _ _ _ _ => Except.ok "p"
    register := fun _ _ => Except.ok () }

theorem claim_C6_amended_witness :
    (("Alice" ∈ (["Alice"] : List String)) ∧
     build_speakers envSttFail COLORS ["Alice"] 0 [] =
       (Except.ok spsW, [CallEvent.checkVoice "Alice", CallEvent.getVoice "Alice"]) ∧
     envSttFail.speech_to_text "a.wav" = Except.error (PyErr.otherError "stt down") ∧
     (conversation envSttFail ["Alice"] COLORS ["Alice"] "Alice" "a.wav"
         "gpt-3.5-turbo" 75 "0.5" 10 48000 1).1 =
       Except.error (PyErr.otherError "stt down")) ∧
    ((conversation envGenFail ["Alice"] COLORS ["Alice"] "Alice" "a.wav"
         "gpt-3.5-turbo" 75 "0.5" 10 48000 1).1 =
       Except.error (PyErr.otherError "llm down")) ∧
    ((conversation envTtsFail ["Alice"] COLORS ["Alice"] "Alice" "a.wav"
         "gpt-3.5-turbo" 75 "0.5" 10 48000 1).1 =
       Except.error (PyErr.otherError "tts down")) ∧
    ((make_voices mvBad "doc" []).1 =
       Except.error (PyErr.assertionError "Videos is not a list")) :=
  ⟨⟨by decide, rfl, rfl,
    claim_C6_amended.1 envSttFail ["Alice"] COLORS ["Alice"] "Alice" "a.wav"
      "gpt-3.5-turbo" 75 "0.5" 10 48000 1 spsW
      [CallEvent.checkVoice "Alice", CallEvent.getVoice "Alice"]
      (PyErr.otherError "stt down") (by decide) rfl rfl⟩,
   claim_C6_amended.2.1 envGenFail ["Alice"] COLORS ["Alice"] "Alice" "a.wav"
     "gpt-3.5-turbo" "How are you?" 75 "0.5" 10 48000 1 spsW
     [CallEvent.checkVoice "Alice", CallEvent.getVoice "Alice"]
     { name := "Alice", voice := "vAlice", color := "#FFA07A" }
     (PyErr.otherError "llm down") (by decide) rfl rfl rfl rfl,
   claim_C6_amended.2.2.1 envTtsFail ["Alice"] COLORS ["Alice"] "Alice" "a.wav"
     "gpt-3.5-turbo" "How are you?" "Alice:Hello there" 75 "0.5" 10 48000 1 spsW
     [CallEvent.checkVoice "Alice", CallEvent.getVoice "Alice"] []
     { name := "Alice", voice := "vAlice", color := "#FFA07A" }
     [({ name := "Alice", voice := "vAlice", color := "#FFA07A" }, "Hello there")]
     [bubble "#FFA07A" "Hello there"]
     (PyErr.otherError "tts down") (by decide) rfl rfl rfl rfl rfl rfl,
   claim_C6_amended.2.2.2 mvBad "doc" [] [("Alice", Yaml.nat 0)]
     (PyErr.assertionError "Videos is not a list") rfl rfl⟩

/-- C8: the `timeout`, `samplerate` and `channels` parameters of
`conversation` have no effect: two calls agreeing on every other input
(and served by the same collaborators) return the same result — the
same History-derived HTML or error — and issue the identical sequence
of collaborator calls, whatever those three parameters are. -/
theorem claim_C8 (env : Env) (kn colors names : List String)
    (iam audio model : String) (mt : Nat) (temp : String)
    (t1 s1 c1 t2 s2 c2 : Nat) :
    conversation env kn colors names iam audio model mt temp t1 s1 c1 =
      conversation env kn colors names iam audio model mt temp t2 s2 c2 := rfl

/-- C9: `make_voices` never returns an error status string: whenever it
returns (rather than raises), the returned status is exactly
"Success". (The `except` block re-raises — the error-string return is
commented out in the source.) -/
theorem claim_C9 (mv : MVEnv) (voices_yaml : String) (store : List String)
    (r : String) (h : (make_voices mv voices_yaml store).1 = Except.ok r) :
    r = "Success" := by
  unfold make_voices at h
  rcases hsl : mv.safe_load voices_yaml with e | y
  · rw [hsl] at h
    exact Except.noConfusion h
  · rw [hsl] at h
    rcases y with s | nn | xs | entries
    · exact Except.noConfusion h
    · exact Except.noConfusion h
    · exact Except.noConfusion h
    · simp only at h
      rcases hl : make_voices_loop mv entries store with ⟨r2, evs, st2⟩
      rw [hl] at h
      rcases r2 with e2 | u
      · exact Except.noConfusion h
      · simp only at h
        injection h with h2
        exact h2.symm

/-- A provisioning environment whose document parses to the empty
mapping, so provisioning trivially succeeds. -/
def mvEmpty : MVEnv :=
  { safe_load := fun _ => Except.ok (Yaml.dict [])
    extract_audio := fun _ _ _ _ => Except.ok "p"
    register := fun _ _ => Except.ok () }

theorem claim_C9_witness :
    (make_voices mvEmpty "doc" []).1 = Except.ok "Success" ∧
    "Success" = "Success" :=
  ⟨rfl, claim_C9 mvEmpty "doc" [] "Success" rfl⟩

/-- C10: an empty History is handled gracefully. (1) The scheduled
playback pipeline on zero entries issues zero synthesis requests, sees
zero completions and performs zero playback calls. (2) The effectful
pipeline on zero entries returns normally with an empty call trace.
(3) A conversation turn whose generated reply yields no valid line
(every line skipped, none aborting) still completes successfully and
returns an HTML fragment containing only the original-utterance bubble,
having issued no synthesis and no playback call after the generation
call — only the skip warnings. -/
theorem claim_C10 :
    (∀ synth : String → String → String,
      play_history synth [] [] =
        { requests := [], completions := [], plays := [] }) ∧
    (∀ env : Env, play_run env [] = (Except.ok (), [])) ∧
    (∀ (env : Env) (kn colors names : List String)
        (iam audio model req resp : String) (mt : Nat) (temp : String)
        (t s c : Nat) (sps : List (String × Speaker))
        (tr1 warns : List CallEvent) (sp : Speaker),
      iam ∈ names →
      build_speakers env colors names 0 [] = (Except.ok sps, tr1) →
      env.speech_to_text audio = Except.ok req →
      sps.lookup iam = some sp →
      env.fake_conversation names iam req model mt temp = Except.ok resp →
      build_history kn sps (splitlines resp) = (Except.ok ([], []), warns) →
      conversation env kn colors names iam audio model mt temp t s c =
        (Except.ok (bubble sp.color req),
         tr1 ++ [CallEvent.transcribe audio,
           CallEvent.generate names iam req model mt temp] ++ warns)) := by
  refine ⟨fun synth => rfl, fun env => rfl, ?_⟩
  intro env kn colors names iam audio model req resp mt temp t s c sps tr1
    warns sp hmem hb hstt hlk hgen hbh
  simp [conversation, hmem, hb, hstt, hlk, hgen, hbh, play_run, gatherResults,
    String.join]

/-- The environment of the C10 witness: generation replies with a
single line naming an unknown speaker, so no line of the reply is kept. -/
def envC10 : Env :=
  { envW with fake_conversation := fun _ _ _ _ _ _ => Except.ok "Unknown:hi" }

theorem claim_C10_witness :
    (("Alice" ∈ (["Alice"] : List String)) ∧
     build_speakers envC10 COLORS ["Alice"] 0 [] =
       (Except.ok spsW, [CallEvent.checkVoice "Alice", CallEvent.getVoice "Alice"]) ∧
     envC10.speech_to_text "a.wav" = Except.ok "How are you?" ∧
     spsW.lookup "Alice" =
       some { name := "Alice", voice := "vAlice", color := "#FFA07A" } ∧
     envC10.fake_conversation ["Alice"] "Alice" "How are you?" "gpt-3.5-turbo"
         75 "0.5" = Except.ok "Unknown:hi" ∧
     build_history ["Alice"] spsW (splitlines "Unknown:hi") =
       (Except.ok ([], []), [CallEvent.warn "Name Unknown is not in [Alice]"])) ∧
    conversation envC10 ["Alice"] COLORS ["Alice"] "Alice" "a.wav"
        "gpt-3.5-turbo" 75 "0.5" 10 48000 1 =
      (Except.ok (bubble "#FFA07A" "How are you?"),
       [CallEvent.checkVoice "Alice", CallEvent.getVoice "Alice"] ++
         [CallEvent.transcribe "a.wav",
          CallEvent.generate ["Alice"] "Alice" "How are you?" "gpt-3.5-turbo"
            75 "0.5"] ++
         [CallEvent.warn "Name Unknown is not in [Alice]"]) :=
  ⟨⟨by decide, rfl, rfl, rfl, rfl, rfl⟩,
   claim_C10.2.2 envC10 ["Alice"] COLORS ["Alice"] "Alice" "a.wav"
     "gpt-3.5-turbo" "How are you?" "Unknown:hi" 75 "0.5" 10 48000 1 spsW
     [CallEvent.checkVoice "Alice", CallEvent.getVoice "Alice"]
     [CallEvent.warn "Name Unknown is not in [Alice]"]
     { name := "Alice", voice := "vAlice", color := "#FFA07A" }
     (by decide) rfl rfl rfl rfl rfl⟩

/-- After a successful provisioning run, the voice store has grown
monotonically and contains every persona of the registry document, and
every registry entry maps its persona to a list of video records. -/
theorem make_voices_loop_ok_state (mv : MVEnv) :
    ∀ (entries : List (String × Yaml)) (store : List String)
      (u : Unit) (evs : List CallEvent) (store2 : List String),
    make_voices_loop mv entries store = (Except.ok u, evs, store2) →
    (∀ x ∈ store, x ∈ store2) ∧
    (∀ p ∈ entries, (∃ videos, p.2 = Yaml.list videos) ∧ p.1 ∈ store2) := by
  intro entries
  induction entries with
  | nil =>
    intro store u evs store2 h
    simp only [make_voices_loop, Prod.mk.injEq] at h
    obtain ⟨-, -, hst⟩ := h
    subst hst
    exact ⟨fun x hx => hx, by simp⟩
  | cons pr rest ih =>
    intro store u evs store2 h
    obtain ⟨name, videosY⟩ := pr
    rcases videosY with s | nn | videos | d
    · simp [make_voices_loop] at h
    · simp [make_voices_loop] at h
    · simp only [make_voices_loop] at h
      by_cases hmem : name ∈ store
      · rw [if_pos hmem] at h
        rcases hrec : make_voices_loop mv rest store with ⟨r, evs2, st2⟩
        rw [hrec] at h
        simp only [Prod.mk.injEq] at h
        obtain ⟨hr, -, hst⟩ := h
        subst hst
        obtain ⟨hmono, hall⟩ :=
          ih store u evs2 st2 (by rw [hrec, hr])
        refine ⟨hmono, ?_⟩
        intro p hp
        rcases List.mem_cons.mp hp with hp | hp
        · subst hp
          exact ⟨⟨videos, rfl⟩, hmono name hmem⟩
        · exact hall p hp
      · rw [if_neg hmem] at h
        rcases hex : extract_all mv name videos 0 with ⟨rx, eevs⟩
        rw [hex] at h
        rcases rx with e2 | paths
        · simp at h
        · simp only at h
          rcases hreg : mv.register name paths with e3 | u3
          · rw [hreg] at h
            simp at h
          · rw [hreg] at h
            simp only at h
            rcases hrec : make_voices_loop mv rest (store ++ [name]) with ⟨r, evs2, st2⟩
            rw [hrec] at h
            simp only [Prod.mk.injEq] at h
            obtain ⟨hr, -, hst⟩ := h
            subst hst
            obtain ⟨hmono, hall⟩ :=
              ih (store ++ [name]) u evs2 st2 (by rw [hrec, hr])
            refine ⟨fun x hx => hmono x (List.mem_append_left _ hx), ?_⟩
            intro p hp
            rcases List.mem_cons.mp hp with hp | hp
            · subst hp
              exact ⟨⟨videos, rfl⟩,
                hmono name (List.mem_append_right _ (List.mem_singleton.mpr rfl))⟩
            · exact hall p hp
    · simp [make_voices_loop] at h

/-- When every persona of the registry document already has a voice,
the provisioning loop only performs the existence checks — one
`check_voice_exists` call per entry, in document order, with no audio
extraction and no registration — and leaves the store unchanged. -/
theorem make_voices_loop_provisioned (mv : MVEnv) :
    ∀ (entries : List (String × Yaml)) (store : List String),
    (∀ p ∈ entries, (∃ videos, p.2 = Yaml.list videos) ∧ p.1 ∈ store) →
    make_voices_loop mv entries store =
      (Except.ok (), entries.map (fun p => CallEvent.checkVoice p.1), store) := by
  intro entries
  induction entries with
  | nil => intro store _; rfl
  | cons pr rest ih =>
    intro store hall
    obtain ⟨name, videosY⟩ := pr
    obtain ⟨⟨videos, hv⟩, hmem⟩ := hall (name, videosY) (List.mem_cons_self _ _)
    simp only at hv
    subst hv
    simp only [make_voices_loop, if_pos hmem,
      ih store (fun p hp => hall p (List.mem_cons_of_mem _ hp))]
    rfl

/-- C5: provisioning is idempotent. If `make_voices` succeeds on a
registry document, running it again on the same document returns
"Success" again, leaves the voice store unchanged, and performs no
audio extraction and no voice registration whatsoever — for every
already-provisioned persona the existence check short-circuits the
entry to a bare `check_voice_exists` call. -/
theorem claim_C5 (mv : MVEnv) (voices_yaml : String) (store0 : List String)
    (tr1 : List CallEvent) (store1 : List String)
    (h1 : make_voices mv voices_yaml store0 = (Except.ok "Success", tr1, store1)) :
    (make_voices mv voices_yaml store1).1 = Except.ok "Success" ∧
    (make_voices mv voices_yaml store1).2.2 = store1 ∧
    ((make_voices mv voices_yaml store1).2.1.all
        (fun e => ! e.isProvisionCall)) = true := by
  unfold make_voices at h1
  rcases hsl : mv.safe_load voices_yaml with e | y
  · rw [hsl] at h1
    simp at h1
  · rw [hsl] at h1
    rcases y with s | nn | xs | entries
    · simp at h1
    · simp at h1
    · simp at h1
    · simp only at h1
      rcases hl : make_voices_loop mv entries store0 with ⟨r, evs, st2⟩
      rw [hl] at h1
      rcases r with e2 | u
      · simp at h1
      · simp only [Prod.mk.injEq] at h1
        obtain ⟨-, -, hst⟩ := h1
        subst hst
        obtain ⟨hmono, hall⟩ :=
          make_voices_loop_ok_state mv entries store0 u evs st2 hl
        have h2 := make_voices_loop_provisioned mv entries st2 hall
        refine ⟨?_, ?_, ?_⟩
        · simp [make_voices, hsl, h2]
        · simp [make_voices, hsl, h2]
        · simp [make_voices, hsl, h2, CallEvent.isProvisionCall]
          intro x n v hmem hx
          subst hx
          rfl

/-- The provisioning environment of the C5 witness: a one-persona
registry whose persona is not yet provisioned on the first run. -/
def mvW : MVEnv :=
  { safe_load := fun _ =>
      Except.ok (Yaml.dict
        [("Alice", Yaml.list [Yaml.dict [("url", Yaml.str "u1")]])])
    extract_audio := fun _ _ _ _ => Except.ok "p1"
    register := fun _ _ => Except.ok () }

theorem claim_C5_witness :
    make_voices mvW "doc" [] =
      (Except.ok "Success",
       [CallEvent.checkVoice "Alice",
        CallEvent.extractAudio (Yaml.str "u1") "audio.Alice.0" (Yaml.nat 0)
          (Yaml.nat 120),
        CallEvent.registerVoice "Alice" ["p1"]],
       ["Alice"]) ∧
    ((make_voices mvW "doc" ["Alice"]).1 = Except.ok "Success" ∧
     (make_voices mvW "doc" ["Alice"]).2.2 = ["Alice"] ∧
     ((make_voices mvW "doc" ["Alice"]).2.1.all
         (fun e => ! e.isProvisionCall)) = true) :=
  ⟨rfl,
   claim_C5 mvW "doc" []
     [CallEvent.checkVoice "Alice",
      CallEvent.extractAudio (Yaml.str "u1") "audio.Alice.0" (Yaml.nat 0)
        (Yaml.nat 120),
      CallEvent.registerVoice "Alice" ["p1"]]
     ["Alice"] rfl⟩
